import Mathlib

/-!
Verification of the cohost-randombot repository's core algorithms against its
natural-language specification.  The Lean definitions below are shallow
embeddings of the Python source files `tryagain.py` and `cohost.py`:
pure computations are translated directly, I/O boundaries (HTTP responses,
scraped pages, poll results) become explicit scripted inputs, and Python
exceptions become explicit error values.  Machine time (`datetime`) is
represented as an integer number of seconds on a linear timeline, which is
order- and addition-faithful to Python's `datetime` comparisons and
`timedelta` arithmetic.
-/

namespace tryagain

/-- Source `tryagain.py`, `backoff_base = 2`. -/
def backoff_base : Int := 2

/-- Source `tryagain.py`, `minimum = 0`. -/
def minimum : Int := 0

/-- Source `tryagain.py`, `backoff(failures) = timedelta(seconds=backoff_base ** failures + minimum)`.
The timedelta is represented by its number of seconds. -/
def backoff (failures : Nat) : Int :=
  backoff_base ^ failures + minimum

/-- Character class `\d` of the regexes in `parse_retry_after`. -/
def digit? (c : Char) : Bool :=
  '0' ≤ c && c ≤ '9'

/-- Numeric value of a digit character. -/
def dval (c : Char) : Nat :=
  c.toNat - '0'.toNat

/-- Embedding of `re.match(r'^\d+$', retry_str)` followed by `int(match.group(0))`.
Python's `$` also matches just before one trailing newline at the end of the
string, so a single final `'\n'` is stripped before the all-digits test;
`group(0)` is then the digit run itself. -/
def digitsMatch (cs : List Char) : Option Nat :=
  let cs' := match cs.getLast? with
    | some c => if c = '\n' then cs.dropLast else cs
    | none => cs
  if cs' ≠ [] ∧ cs'.all digit? then
    some (cs'.foldl (fun acc c => 10 * acc + dval c) 0)
  else
    none

/-- The seven weekday names accepted by the date regex in `parse_retry_after`. -/
def weekdays : List (List Char) :=
  [['M','o','n'], ['T','u','e'], ['W','e','d'], ['T','h','u'],
   ['F','r','i'], ['S','a','t'], ['S','u','n']]

/-- The month-name alternation of the date regex, combined with the `_month`
lookup table of `tryagain.py` (month name to month number). -/
def monthNum : List Char → Option Nat
  | ['J','a','n'] => some 1
  | ['F','e','b'] => some 2
  | ['M','a','r'] => some 3
  | ['A','p','r'] => some 4
  | ['M','a','y'] => some 5
  | ['J','u','n'] => some 6
  | ['J','u','l'] => some 7
  | ['A','u','g'] => some 8
  | ['S','e','p'] => some 9
  | ['O','c','t'] => some 10
  | ['N','o','v'] => some 11
  | ['D','e','c'] => some 12
  | _ => none

/-- The six captured fields of the date regex: day, month (as a number via
`_month`), year, hour, minute, second. -/
structure DateComps where
  day : Nat
  month : Nat
  year : Nat
  hour : Nat
  minute : Nat
  second : Nat
deriving DecidableEq

/-- Tail of the date regex after the weekday alternation:
`, (\d\d) (Mon|...|Dec) (\d{4}) (\d\d):(\d\d):(\d\d) GMT$`.
As with `digitsMatch`, `$` also accepts one trailing newline. -/
def dateMatchRest (cs : List Char) : Option DateComps :=
  match cs with
  | ',' :: ' ' :: d1 :: d2 :: ' ' :: m1 :: m2 :: m3 :: ' ' ::
    y1 :: y2 :: y3 :: y4 :: ' ' :: h1 :: h2 :: ':' :: n1 :: n2 :: ':' ::
    s1 :: s2 :: ' ' :: 'G' :: 'M' :: 'T' :: tail =>
    if (tail = [] ∨ tail = ['\n']) ∧ digit? d1 ∧ digit? d2 ∧
       digit? y1 ∧ digit? y2 ∧ digit? y3 ∧ digit? y4 ∧
       digit? h1 ∧ digit? h2 ∧ digit? n1 ∧ digit? n2 ∧
       digit? s1 ∧ digit? s2 then
      match monthNum [m1, m2, m3] with
      | some mo =>
        some ⟨10 * dval d1 + dval d2, mo,
              1000 * dval y1 + 100 * dval y2 + 10 * dval y3 + dval y4,
              10 * dval h1 + dval h2, 10 * dval n1 + dval n2,
              10 * dval s1 + dval s2⟩
      | none => none
    else none
  | _ => none

/-- Embedding of the date regex of `parse_retry_after`:
`^(?:Mon|...|Sun), (\d\d) (Jan|...|Dec) (\d{4}) (\d\d):(\d\d):(\d\d) GMT$`. -/
def dateMatch (cs : List Char) : Option DateComps :=
  match cs with
  | w1 :: w2 :: w3 :: rest =>
    if [w1, w2, w3] ∈ weekdays then dateMatchRest rest else none
  | _ => none

/-- Gregorian leap-year rule used by Python's `datetime`. -/
def isLeap (y : Nat) : Bool :=
  y % 4 = 0 && (y % 100 ≠ 0 || y % 400 = 0)

/-- Length of a month in a given year (month numbered 1..12). -/
def monthDays (y m : Nat) : Nat :=
  if m = 2 then (if isLeap y then 29 else 28)
  else if m = 4 ∨ m = 6 ∨ m = 9 ∨ m = 11 then 30
  else 31

/-- Days in year `y` strictly before month `m`. -/
def daysBeforeMonth (y m : Nat) : Nat :=
  (List.range (m - 1)).foldl (fun acc i => acc + monthDays y (i + 1)) 0

/-- Days strictly before January 1st of year `y` in the proleptic Gregorian
calendar counted from year 1, as in `datetime.toordinal`. -/
def daysBeforeYear (y : Nat) : Nat :=
  (y - 1) * 365 + (y - 1) / 4 + (y - 1) / 400 - (y - 1) / 100

/-- Embedding of `datetime.strptime(rebuild, '%d %Y %H %M %S %m')` applied to
the regex captures: validates the ranges `datetime` enforces (year at least 1,
day within the month, hour/minute/second in range) and yields the instant as
seconds on the linear timeline, or `none` for the `ValueError` that `strptime`
raises on out-of-range fields. -/
def strptimeEpoch (c : DateComps) : Option Int :=
  if 1 ≤ c.year ∧ 1 ≤ c.month ∧ c.month ≤ 12 ∧
     1 ≤ c.day ∧ c.day ≤ monthDays c.year c.month ∧
     c.hour ≤ 23 ∧ c.minute ≤ 59 ∧ c.second ≤ 59 then
    some (((daysBeforeYear c.year + daysBeforeMonth c.year c.month + (c.day - 1)) * 86400
           + c.hour * 3600 + c.minute * 60 + c.second : Nat) : Int)
  else
    none

/-- Possible outcomes of `parse_retry_after` in the source: a returned
`datetime` (`timestamp`), the implicit `None` return when neither regex
matches (`noneReturned` — the function body simply falls off the end), or the
uncaught `ValueError` of `strptime` on a regex-matching but invalid date. -/
inductive RetryParseResult where
  | timestamp (t : Int)
  | noneReturned
  | valueError
deriving DecidableEq

/-- Embedding of `tryagain.parse_retry_after(retry_str, failures)`.  The
ambient `datetime.now()` is passed explicitly as `now`; both uses of
`datetime.now()` in the source are taken at the same fixed instant. -/
def parse_retry_after (retry_str : String) (failures : Nat) (now : Int) : RetryParseResult :=
  match digitsMatch retry_str.data with
  | none =>
    match dateMatch retry_str.data with
    | some comps =>
      match strptimeEpoch comps with
      | some parsed =>
        if parsed < now then .timestamp (now + backoff failures)
        else .timestamp (parsed + 1)
      | none => .valueError
    | none => .noneReturned
  | some n => .timestamp (now + (n : Int))

end tryagain

namespace cohost

/-- Python exceptions relevant to the embedded code paths. -/
inductive PyExc where
  | valueError
  | keyError
  | typeError
  | indexError
  | attributeError
  | timeoutError
  | scriptEnded
deriving DecidableEq

/-- JSON values as decoded by `resp.json()`. -/
inductive JsonVal where
  | obj (fields : List (String × JsonVal))
  | arr (elems : List JsonVal)
  | str (s : String)
  | num (n : Int)
  | booly (b : Bool)
  | null

/-- Whether `hay` starts with `needle` (character lists). -/
def startsWithChars : List Char → List Char → Bool
  | [], _ => true
  | _ :: _, [] => false
  | c :: cs, d :: ds => c == d && startsWithChars cs ds

/-- Whether `hay` ends with `needle`, the semantics of `str.endswith`. -/
def endsWithChars (needle hay : List Char) : Bool :=
  startsWithChars needle.reverse hay.reverse

/-- The last `/`-separated segment of a string, the semantics of
`x.split("/")[-1]`. -/
def lastSegmentChars (cs : List Char) : List Char :=
  cs.foldl (fun acc c => if c = '/' then [] else acc ++ [c]) []

/-- Whether `needle` occurs as a contiguous substring of `hay`, the semantics
of Python's `in` on strings. -/
def subChars (needle hay : List Char) : Bool :=
  startsWithChars needle hay ||
    (match hay with
     | [] => false
     | _ :: t => subChars needle t)

/-- Python `key in v` for a string `key`: key membership on a dict, element
equality on a list (a JSON element equals a string key only when it is that
string), substring test on a string, and `TypeError` on any other value. -/
def pyContainsStr (key : String) : JsonVal → Except PyExc Bool
  | .obj fs => .ok (fs.any (fun p => p.1 == key))
  | .arr es => .ok (es.any (fun e => match e with | .str s => s == key | _ => false))
  | .str s => .ok (subChars key.data s.data)
  | _ => .error .typeError

/-- Python `v[key]` for a string `key`: dict lookup (with `KeyError` when
absent); lists and strings reject a string index with `TypeError`, as do the
remaining values. -/
def pyIndexStr (v : JsonVal) (key : String) : Except PyExc JsonVal :=
  match v with
  | .obj fs =>
    match fs.find? (fun p => p.1 == key) with
    | some p => .ok p.2
    | none => .error .keyError
  | _ => .error .typeError

/-- Python `v[0]`: a JSON-decoded dict has only string keys, so the integer
key raises `KeyError`; a list yields its head or `IndexError`; a string
yields its first character (as a string) or `IndexError`; other values raise
`TypeError`. -/
def pyIndexZero : JsonVal → Except PyExc JsonVal
  | .obj _ => .error .keyError
  | .arr [] => .error .indexError
  | .arr (e :: _) => .ok e
  | .str s =>
    match s.data with
    | [] => .error .indexError
    | ch :: _ => .ok (.str (String.mk [ch]))
  | _ => .error .typeError

/-- Python `v.strip()`: defined on strings, `AttributeError` otherwise.  The
stripped text itself is only printed by the source, so it is dropped. -/
def pyStrip : JsonVal → Except PyExc Unit
  | .str _ => .ok ()
  | _ => .error .attributeError

/-- The body of the `try:` block in the non-200 branch of
`_try_with_backoff` (`cohost.py` lines 166-171):
`js = resp.json()` already succeeded and produced `js`;
then `if "message" in js: rp(js["message"].strip())`
and `if "message" in js[0]["error"]: rp(js[0]["error"]["message"].strip())`.
The printed output is irrelevant; only the first exception (if any) matters. -/
def message_probe (js : JsonVal) : Except PyExc Unit :=
  match pyContainsStr "message" js with
  | .error e => .error e
  | .ok b =>
    match (if b then
             match pyIndexStr js "message" with
             | .error e => .error e
             | .ok v =>
               match pyStrip v with
               | .error e => .error e
               | .ok _ => .ok ()
           else .ok () : Except PyExc Unit) with
    | .error e => .error e
    | .ok _ =>
      match pyIndexZero js with
      | .error e => .error e
      | .ok e0 =>
        match pyIndexStr e0 "error" with
        | .error e => .error e
        | .ok w =>
          match pyContainsStr "message" w with
          | .error e => .error e
          | .ok b2 =>
            if b2 then
              match pyIndexStr w "message" with
              | .error e => .error e
              | .ok v2 =>
                match pyStrip v2 with
                | .error e => .error e
                | .ok _ => .ok ()
            else .ok ()

/-- Exception escaping the whole `try:` body of the non-200 branch, `none`
when the body runs to completion.  A response body of `none` models a body
that `resp.json()` cannot decode; `requests` raises a subclass of
`ValueError` there. -/
def extract_message : Option JsonVal → Option PyExc
  | none => some .valueError
  | some js =>
    match message_probe js with
    | .ok _ => none
    | .error e => some e

/-- One scripted HTTP response at the transport boundary: status code, the
optional `retry-after` header, and the decoded JSON body (`none` when the
body is not valid JSON). -/
structure Response where
  status : Nat
  retryAfterHeader : Option String
  body : Option JsonVal

/-- Source `cohost.py`, `MAX_RETRY = 10`. -/
def MAX_RETRY : Nat := 10

/-- Outcome of `_try_with_backoff`: the returned response, the
`TimeoutError(f"too many retries: {failures}")`, the
`ValueError(f"got {status} for {url}")` status error, some other Python
exception propagating out of the loop body, or exhaustion of the response
script (which models an execution trace longer than the script). -/
inductive ExecResult where
  | ok (r : Response)
  | tooManyRetries (n : Nat)
  | statusError (url : String) (status : Nat)
  | pythonExc (e : PyExc)
  | scriptOver

/-- The `while 1:` loop of `_try_with_backoff` over a scripted list of
responses, one response consumed per attempt.  Returns the outcome together
with the number of requests performed.  In the retryable branch the failure
counter is incremented first, then checked against `MAX_RETRY`, then the
`retry-after` header is consulted: a parsed timestamp leads to a sleep
(unobservable here) and another attempt, the implicit `None` return of
`parse_retry_after` makes `new_schedule - datetime.now()` raise `TypeError`,
and a `ValueError` from `strptime` propagates. -/
def try_loop (url : String) (now : Int) : Nat → List Response → ExecResult × Nat
  | _, [] => (.scriptOver, 0)
  | failures, resp :: rest =>
    if resp.status = 418 ∨ (500 ≤ resp.status ∧ resp.status ≤ 599) then
      let failures' := failures + 1
      if MAX_RETRY < failures' then (.tooManyRetries failures', 1)
      else
        match resp.retryAfterHeader with
        | some hint =>
          match tryagain.parse_retry_after hint failures' now with
          | .timestamp _ =>
            let r := try_loop url now failures' rest
            (r.1, r.2 + 1)
          | .noneReturned => (.pythonExc .typeError, 1)
          | .valueError => (.pythonExc .valueError, 1)
        | none =>
          let r := try_loop url now failures' rest
          (r.1, r.2 + 1)
    else if resp.status ≠ 200 then
      match extract_message resp.body with
      | none => (.statusError url resp.status, 1)
      | some e =>
        if e = .valueError ∨ e = .keyError then (.statusError url resp.status, 1)
        else (.pythonExc e, 1)
    else (.ok resp, 1)

/-- Embedding of `cohost._try_with_backoff(url, ...)` run against a scripted
sequence of transport responses, starting from zero failures. -/
def _try_with_backoff (url : String) (now : Int) (script : List Response) : ExecResult × Nat :=
  try_loop url now 0 script

/-- The fields of `ProjectModel` that the core algorithms read. -/
structure ProjectModelE where
  projectId : Int
  handle : String
  displayName : Option String
deriving DecidableEq

/-- The fields of `PostModel` that the core algorithms read.  `shareTree` is
the ordered ancestor chain, oldest first.  The type is a nested inductive
because a structure cannot recurse through `List`. -/
inductive PostModelE where
  | mk (postId : Int) (headline : String)
       (transparentShareOfPostId : Option Int) (shareOfPostId : Option Int)
       (tags : List String) (postingProject : ProjectModelE)
       (shareTree : List PostModelE)

/-- Field `postId` of a post. -/
def PostModelE.postId : PostModelE → Int
  | .mk i _ _ _ _ _ _ => i

/-- Field `transparentShareOfPostId` of a post. -/
def PostModelE.transparentShareOfPostId : PostModelE → Option Int
  | .mk _ _ t _ _ _ _ => t

/-- Field `shareOfPostId` of a post. -/
def PostModelE.shareOfPostId : PostModelE → Option Int
  | .mk _ _ _ s _ _ _ => s

/-- Field `postingProject` of a post. -/
def PostModelE.postingProject : PostModelE → ProjectModelE
  | .mk _ _ _ _ _ p _ => p

/-- Field `shareTree` of a post. -/
def PostModelE.shareTree : PostModelE → List PostModelE
  | .mk _ _ _ _ _ _ s => s

/-- `post.model_copy(update={"shareTree": l}, deep=True)`: a copy of the post
with its `shareTree` field replaced (value semantics make the deep copy a
no-op in the embedding). -/
def PostModelE.withShareTree : PostModelE → List PostModelE → PostModelE
  | .mk i h t s tg p _, l => .mk i h t s tg p l

/-- The comments mapping of an extended post (thread root to comment bodies);
the share-lineage algorithm only carries it through unmodified. -/
def CommentsMap : Type := List (String × List String)

/-- `ExtendedInfoModel`: a post plus its comments mapping. -/
structure ExtendedInfoModelE where
  post : PostModelE
  comments : CommentsMap

/-- The backward scan of `find_the_original_content` (`cohost.py` lines
453-457): starting from Python index `-1` and decrementing, skip entries
whose `transparentShareOfPostId` is set.  Scanning the reversed share tree,
`k` counts the steps taken, so the Python index of the entry under scrutiny
is `-(k+1)`.  Returns the first non-transparent entry with its `k`, or
`none` for the `IndexError` raised when the index runs off the front of the
tree. -/
def scanBack : List PostModelE → Nat → Option (Nat × PostModelE)
  | [], _ => none
  | p :: rest, k =>
    if p.transparentShareOfPostId = none then some (k, p)
    else scanBack rest (k + 1)

/-- Embedding of `cohost.find_the_original_content`.  When the outer post
carries no transparent-share marker the input is returned unchanged.
Otherwise the share tree is scanned backward for the first non-transparent
entry (Python index `-(k+1)`), and the result post is that entry with its
share tree replaced by the slice `tree[: index + 1]` = `tree[: -k]`; Python
slice semantics make that slice empty when `k = 0` and the first
`length - k` entries when `k ≥ 1`.  `none` models the `IndexError` of a tree
consisting entirely of transparent shares. -/
def find_the_original_content (ep : ExtendedInfoModelE) : Option ExtendedInfoModelE :=
  if ep.post.transparentShareOfPostId = none then some ep
  else
    let tree := ep.post.shareTree
    match scanBack tree.reverse 0 with
    | none => none
    | some (k, pm) =>
      let newTree := if k = 0 then [] else tree.take (tree.length - k)
      some { post := pm.withShareTree newTree, comments := ep.comments }

/-- Embedding of `cohost.get_author_classic(pid)`.  Its single fetch is
scripted as `fetched`: either the `_links` list of the classic metadata
document (a list of `href` strings) or the exception the fetch raised.  The
links are filtered to those that start with `/api/v1/project/` and do not
end with `/posts`; the handle is the last `/`-separated segment of the first
survivor.  `author[0]` on an empty filter result raises `IndexError`. -/
def get_author_classic (fetched : Except PyExc (List String)) : Except PyExc String :=
  match fetched with
  | .error e => .error e
  | .ok links =>
    let author := links.filter
      (fun x => startsWithChars "/api/v1/project/".data x.data &&
                !(endsWithChars "/posts".data x.data))
    match author with
    | [] => .error .indexError
    | a :: _ => .ok (String.mk (lastSegmentChars a.data))

/-- The author-resolution step of `cohost.try_post` (lines 433-436):
`try: get_author_classic(pid) except ValueError: get_author_hacky(pid)`.
The probe path is scripted as `hacky`; the second component counts how many
times `get_author_hacky` was invoked. -/
def try_post_author (fetched : Except PyExc (List String))
    (hacky : Except PyExc String) : Except PyExc String × Nat :=
  match get_author_classic fetched with
  | .ok h => (.ok h, 0)
  | .error .valueError => (hacky, 1)
  | .error e => (.error e, 0)

/-- The polling loop of `get_author_hacky` (lines 310-322): `timeout`
starts at 3; each attempt either yields the extended record (break), raises
`ValueError` (decrement `timeout`, raise `ValueError` when it reaches 0,
else sleep briefly and retry), or raises some other exception which
propagates.  Poll attempts are scripted; an exhausted script yields the
pseudo-exception `scriptEnded`. -/
def poll_loop : List (Except PyExc ExtendedInfoModelE) → Nat → Except PyExc ExtendedInfoModelE
  | [], _ => .error .scriptEnded
  | p :: rest, timeout =>
    match p with
    | .ok m => .ok m
    | .error .valueError =>
      if timeout - 1 = 0 then .error .valueError
      else poll_loop rest (timeout - 1)
    | .error e => .error e

/-- The body of the `try:` block of `get_author_hacky` (lines 304-330), run
after the scratch reshare was created: poll for the scratch post's extended
record, read `shareTree[-1]` (`IndexError` on an empty tree), compare its
`postId` against the target (`raise ValueError()` on mismatch, the fatal
consistency error), and return the origin project's handle. -/
def hacky_body (pid : Int) (polls : List (Except PyExc ExtendedInfoModelE)) :
    Except PyExc String :=
  match poll_loop polls 3 with
  | .error e => .error e
  | .ok m =>
    match m.post.shareTree.getLast? with
    | none => .error .indexError
    | some base =>
      if base.postId ≠ pid then .error .valueError
      else .ok base.postingProject.handle

/-- Embedding of `cohost.get_author_hacky(pid)` from the point where the
scratch reshare exists: the `try/finally` around `hacky_body`.  The
`finally:` block attempts the deletion exactly once (`deletes`, the second
component, counts attempts); its own `try/except ValueError` logs a
`ValueError` from the delete request without escalating, but any other
exception raised by the delete (`del_` here is that request's outcome)
propagates out of the `finally:` and replaces the primary outcome. -/
def get_author_hacky (pid : Int) (polls : List (Except PyExc ExtendedInfoModelE))
    (del_ : Except PyExc Unit) : Except PyExc String × Nat :=
  let body := hacky_body pid polls
  match del_ with
  | .ok _ => (body, 1)
  | .error .valueError => (body, 1)
  | .error e => (.error e, 1)

/-- Insertion of a page's handles into the running unique set
(`uniques.update(post_handles)` on a Python `set`, represented as a
duplicate-free list; only the cardinality of the set is ever consumed). -/
def insertAll (uniques : List String) (hs : List String) : List String :=
  hs.foldl (fun u h => if h ∈ u then u else u ++ [h]) uniques

/-- The `while page_count < max_pages:` loop of `cohost._tag_analyze`
(lines 239-275).  The scrape boundary is scripted as `pages`, mapping a page
index to the contributing-account handles extracted from that page's post
headers; the URL/cursor bookkeeping (`reft`, `skipPosts`) only shapes the
request and is dropped.  `remaining` is `max_pages - page_count`, so the
loop guard `page_count < max_pages` is `remaining > 0`; `off` mirrors the
`offset` variable.  Returns the `(bool, str)` result of the source paired
with the number of page fetches performed. -/
def tag_loop (pages : Nat → List String) (target : Nat) :
    List String → Nat → Nat → Nat → (Bool × String) × Nat
  | uniques, _, _, 0 =>
    ((decide (target ≤ uniques.length), toString uniques.length ++ " or more"), 0)
  | uniques, page_count, off, remaining + 1 =>
    let post_handles := pages page_count
    let uniques' := insertAll uniques post_handles
    if post_handles.length = 0 then
      ((decide (target ≤ uniques'.length), toString uniques'.length), 1)
    else
      let r := tag_loop pages target uniques' (page_count + 1)
                 (off + post_handles.length) remaining
      (r.1, r.2 + 1)

/-- Embedding of `cohost._tag_analyze(tag_name, target, max_pages)` over a
scripted scrape boundary: result of the source function paired with the
number of page fetches performed. -/
def _tag_analyze (pages : Nat → List String) (target max_pages : Nat) :
    (Bool × String) × Nat :=
  tag_loop pages target [] 0 0 max_pages

/-- Pure restatement of the unique-handle accumulation over the pages
scanned by `tag_loop`: starting from `uniques`, fold the pages
`page_count, page_count+1, ...` for `remaining` steps. -/
def collectFrom (pages : Nat → List String) :
    List String → Nat → Nat → List String
  | uniques, _, 0 => uniques
  | uniques, page_count, remaining + 1 =>
    collectFrom pages (insertAll uniques (pages page_count)) (page_count + 1) remaining

/-- Whether a JSON value is a string. -/
def isStrVal : JsonVal → Bool
  | .str _ => true
  | _ => false

/-- Whether the `"message"` member of an object, if present, is a string
(so that `.strip()` on it succeeds). -/
def messageFieldOk (fs : List (String × JsonVal)) : Bool :=
  match fs.find? (fun p => p.1 == "message") with
  | none => true
  | some p => isStrVal p.2

/-- Response-body shapes on which the message probe of the non-200 branch
runs to completion or raises only the locally caught `ValueError`/`KeyError`:
an undecodable body, a JSON object whose `"message"` member (if present) is a
string, or a batch-style JSON array headed by an object, containing no
element equal to the string `"message"`, whose head's `"error"` member (if
present) is an object whose own `"message"` member (if present) is a
string. -/
def bodySafe : Option JsonVal → Bool
  | none => true
  | some (.obj fs) => messageFieldOk fs
  | some (.arr es) =>
    match es with
    | .obj fs :: _ =>
      es.all (fun e => match e with | .str s => !(s == "message") | _ => true) &&
      (match fs.find? (fun p => p.1 == "error") with
       | none => true
       | some p =>
         match p.2 with
         | .obj ws => messageFieldOk ws
         | _ => false)
    | _ => false
  | some _ => false

/-- Fixture: project record with a given id and handle. -/
def projOf (i : Int) (h : String) : ProjectModelE :=
  ⟨i, h, none⟩

/-- Fixture A: an original post (no share markers, empty share tree). -/
def postA : PostModelE :=
  .mk 100 "the original" none none [] (projOf 1 "alice") []

/-- Fixture B: a transparent share of A. -/
def postB : PostModelE :=
  .mk 101 "" (some 100) (some 100) [] (projOf 2 "bob") [postA]

/-- Fixture C: a transparent share of B. -/
def postC : PostModelE :=
  .mk 102 "" (some 100) (some 101) [] (projOf 3 "carol") [postA, postB]

/-- Fixture: the outermost fetched post, itself a transparent share, with
share tree `[A, B, C]`. -/
def outerShare : PostModelE :=
  .mk 103 "" (some 100) (some 102) [] (projOf 4 "dave") [postA, postB, postC]

/-- Fixture: the outermost fetched post's comments mapping. -/
def outerComments : CommentsMap :=
  [("thread-1", ["first comment"])]

/-- Fixture: the outermost extended post handed to
`find_the_original_content`. -/
def outerEP : ExtendedInfoModelE :=
  ⟨outerShare, outerComments⟩

/-- Fixture: an extended post with no transparent-share marker. -/
def plainEP : ExtendedInfoModelE :=
  ⟨postA, []⟩

/-- Fixture: the post at the tail of the scratch reshare's share tree in the
probe scenario — the true origin of post 7, authored by `origin`. -/
def probeBase : PostModelE :=
  .mk 7 "probed" none none [] (projOf 9 "origin") []

/-- Fixture: the scratch reshare's extended record as returned by a
successful poll. -/
def probeEP : ExtendedInfoModelE :=
  ⟨.mk 500 "" (some 7) (some 7) [] (projOf 10 "scratch") [probeBase], []⟩

/-- Fixture: a scripted scrape boundary for the popularity sampler — page 0
shows handles `a`, `b`, page 1 shows `c`, later pages are empty. -/
def pagesEx : Nat → List String :=
  fun n => if n = 0 then ["a", "b"] else if n = 1 then ["c"] else []

/-- Fixture: a retryable 500 response without a `retry-after` header. -/
def resp500 : Response :=
  ⟨500, none, none⟩

end cohost


open tryagain cohost

/-- A character list with a non-digit head never matches `^\d+$`. -/
theorem digitsMatch_head_nondigit (a : Char) (t : List Char)
    (h : digit? a = false) : digitsMatch (a :: t) = none := by
  match t with
  | [] =>
    by_cases ha : a = '\n'
    · subst ha
      simp [digitsMatch]
    · simp [digitsMatch, List.getLast?, ha, h]
  | b :: t' =>
    unfold digitsMatch
    rw [List.getLast?_cons_cons]
    cases hg : (b :: t').getLast? with
    | none => simp [h]
    | some c =>
      by_cases hc : c = '\n'
      · subst hc
        simp [h, List.dropLast_cons₂]
      · simp [hc, h]

/-- A string matching the HTTP-date regex starts with a weekday letter, hence
with a non-digit. -/
theorem dateMatch_head_weekday (cs : List Char) (c : DateComps)
    (h : dateMatch cs = some c) :
    ∃ a t, cs = a :: t ∧ digit? a = false := by
  unfold dateMatch at h
  split at h
  · next w1 w2 w3 rest =>
    refine ⟨w1, w2 :: w3 :: rest, rfl, ?_⟩
    split at h
    · next hw =>
      simp [weekdays] at hw
      rcases hw with ⟨rfl, -⟩ | ⟨rfl, -⟩ | ⟨rfl, -⟩ | ⟨rfl, -⟩ | ⟨rfl, -⟩ | ⟨rfl, -⟩ | ⟨rfl, -⟩ <;>
        decide
    · cases h
  · cases h

/-- A string matching the HTTP-date regex does not match the all-digits
regex, so `parse_retry_after` reaches its date branch. -/
theorem dateMatch_digitsMatch_none (cs : List Char) (c : DateComps)
    (h : dateMatch cs = some c) : digitsMatch cs = none := by
  obtain ⟨a, t, rfl, ha⟩ := dateMatch_head_weekday cs c h
  exact digitsMatch_head_nondigit a t ha

/-- The backward scan only ever returns an entry whose transparent-share
marker is unset: that is its loop exit condition. -/
theorem scanBack_marker_none (l : List PostModelE) :
    ∀ (k k' : Nat) (pm : PostModelE),
      scanBack l k = some (k', pm) → pm.transparentShareOfPostId = none := by
  induction l with
  | nil => intro k k' pm h; cases h
  | cons p rest ih =>
    intro k k' pm h
    simp only [scanBack] at h
    split at h
    · next hp => cases h; exact hp
    · exact ih _ _ _ h

/-- Replacing the share tree of a post leaves its transparent-share marker
unchanged. -/
theorem withShareTree_transparent (p : PostModelE) (l : List PostModelE) :
    (p.withShareTree l).transparentShareOfPostId = p.transparentShareOfPostId := by
  cases p
  rfl

/-- Claim C9: whenever `find_the_original_content` returns a result without
raising, the returned post's `transparentShareOfPostId` is unset — both in
the unchanged-input case and after collapsing a transparent chain. -/
theorem claim_C9_marker_unset (ep r : ExtendedInfoModelE)
    (h : find_the_original_content ep = some r) :
    r.post.transparentShareOfPostId = none := by
  unfold find_the_original_content at h
  split at h
  · next hc =>
    cases h
    exact hc
  · next hc =>
    dsimp only at h
    split at h
    · cases h
    · next k pm heq =>
      cases h
      show (pm.withShareTree _).transparentShareOfPostId = none
      rw [withShareTree_transparent]
      exact scanBack_marker_none _ _ _ _ heq

/-- Witness for C9 at a concrete input whose marker is already unset. -/
theorem claim_C9_witness :
    find_the_original_content plainEP = some plainEP ∧
    plainEP.post.transparentShareOfPostId = none :=
  ⟨rfl, claim_C9_marker_unset plainEP plainEP rfl⟩

/-- Claim C1 (divergence): on the share tree `[A (original), B (transparent),
C (transparent)]` with the outer marker set, the code collapses to A and
preserves the outermost comments, but the slice `tree[: index + 1]`
(index = -3, so `tree[:-2]`) leaves `[A]` — not the empty list the claim
requires — as A's share tree in the output. -/
theorem claim_C1_slice_off_by_one :
    find_the_original_content outerEP =
      some ⟨postA.withShareTree [postA], outerComments⟩ ∧
    (postA.withShareTree [postA]).shareTree ≠ ([] : List PostModelE) := by
  refine ⟨rfl, ?_⟩
  simp [postA, PostModelE.withShareTree, PostModelE.shareTree]

/-- Claim C2 (divergence): on the malformed retry hint `"soon"` the parser
returns the implicit `None` (no exception, no fallback), and the executor
then raises `TypeError` from `None - datetime.now()` to its own caller
instead of recovering with `backoff(failureCount)`. -/
theorem claim_C2_malformed_hint_surfaces :
    parse_retry_after "soon" 1 0 = .noneReturned ∧
    _try_with_backoff "u" 0 [⟨500, some "soon", none⟩] = (.pythonExc .typeError, 1) :=
  ⟨rfl, rfl⟩

/-- Claim C3 (divergence): when the classic metadata document's link list
contains only the post-listing link, the filtered author list is empty and
`author[0]` raises `IndexError`, which `try_post` (catching only
`ValueError`) does not convert into the probe fallback: `get_author_hacky`
is invoked zero times and the `IndexError` propagates. -/
theorem claim_C3_no_probe_fallback :
    try_post_author (.ok ["/api/v1/project_post/9", "/api/v1/project/somebody/posts"])
      (.ok "probe-handle") = (.error .indexError, 0) :=
  rfl

/-- Claim C6: with the fixed retry maximum of 10, eleven consecutive
retryable (500) responses make the executor raise the retry-exhaustion
error carrying the attempt count 11, after exactly 11 requests — whatever
further responses the transport could have served, no 12th request is
performed. -/
theorem claim_C6_retry_exhaustion :
    MAX_RETRY = 10 ∧
    ∀ (url : String) (now : Int) (rest : List Response),
      _try_with_backoff url now (List.replicate 11 resp500 ++ rest) =
        (.tooManyRetries 11, 11) :=
  ⟨rfl, fun _ _ _ => rfl⟩

/-- The sampler loop performs at most `remaining` page fetches: each
iteration consumes one unit of the budget. -/
theorem tag_loop_fetches_le (pages : Nat → List String) (target : Nat) :
    ∀ (remaining : Nat) (uniques : List String) (page_count off : Nat),
      (tag_loop pages target uniques page_count off remaining).2 ≤ remaining := by
  intro remaining
  induction remaining with
  | zero => intro u pc off; simp [tag_loop]
  | succ r ih =>
    intro u pc off
    simp only [tag_loop]
    split
    · simp
    · have := ih (insertAll u (pages pc)) (pc + 1) (off + (pages pc).length)
      simpa using Nat.succ_le_succ this

/-- Claim C10: `_tag_analyze` terminates on every input (it is a total
function of the scripted pages) and performs at most `max_pages` page
fetches before returning: each iteration raises the page counter by one and
the loop guard keeps it below `max_pages`. -/
theorem claim_C10_page_budget (pages : Nat → List String) (target max_pages : Nat) :
    (_tag_analyze pages target max_pages).2 ≤ max_pages :=
  tag_loop_fetches_le pages target max_pages [] 0 0

/-- When no scanned page is empty, the sampler loop spends its whole budget
and returns the lower-bound form over the accumulated unique handles. -/
theorem tag_loop_no_empty_page (pages : Nat → List String) (target : Nat) :
    ∀ (remaining : Nat) (uniques : List String) (page_count off : Nat),
      (∀ j, j < remaining → pages (page_count + j) ≠ []) →
      tag_loop pages target uniques page_count off remaining =
        ((decide (target ≤ (collectFrom pages uniques page_count remaining).length),
          toString (collectFrom pages uniques page_count remaining).length ++ " or more"),
         remaining) := by
  intro remaining
  induction remaining with
  | zero => intro u pc off h; simp [tag_loop, collectFrom]
  | succ r ih =>
    intro u pc off h
    have h0 : pages pc ≠ [] := by simpa using h 0 (Nat.succ_pos r)
    have hlen : ¬ (pages pc).length = 0 := by
      simpa [List.length_eq_zero] using h0
    simp only [tag_loop, collectFrom]
    rw [if_neg hlen]
    have hshift : ∀ j, j < r → pages (pc + 1 + j) ≠ [] := by
      intro j hj
      have := h (j + 1) (by omega)
      rwa [show pc + (j + 1) = pc + 1 + j by omega] at this
    rw [ih (insertAll u (pages pc)) (pc + 1) (off + (pages pc).length) hshift]

/-- Claim C4 (amended): when the page budget is exhausted before any
zero-yield page, the result pairs the boolean `uniqueCount ≥ target` with
the lower-bound string `"N or more"` for the accumulated unique count `N` —
regardless of whether the target was met — and all `max_pages` fetches are
performed.  The exact-count string appears only on the zero-yield early
exit. -/
theorem claim_C4_lower_bound (pages : Nat → List String) (target max_pages : Nat)
    (h : ∀ j, j < max_pages → pages j ≠ []) :
    _tag_analyze pages target max_pages =
      ((decide (target ≤ (collectFrom pages [] 0 max_pages).length),
        toString (collectFrom pages [] 0 max_pages).length ++ " or more"),
       max_pages) := by
  have := tag_loop_no_empty_page pages target max_pages [] 0 0
    (by intro j hj; simpa using h j hj)
  simpa [_tag_analyze] using this

/-- Witness for the amended C4 at a concrete scripted scrape. -/
theorem claim_C4_witness :
    _tag_analyze (fun _ => ["a"]) 1 2 = ((true, "1 or more"), 2) :=
  (claim_C4_lower_bound (fun _ => ["a"]) 1 2 (fun _ _ => by simp)).trans (by decide)

/-- Counterexample to C4 as stated: two non-empty pages showing handles
`{a, b}` then `{c}` with target 2 and budget 2 meet the target, yet the
returned string is the lower bound `"3 or more"`, not the exact count
`"3"` the claim requires when the target was met. -/
theorem claim_C4_counterexample :
    ((_tag_analyze pagesEx 2 2).1.1 = true) ∧
    ((_tag_analyze pagesEx 2 2).1.2 = "3 or more") ∧
    ((_tag_analyze pagesEx 2 2).1.2 ≠ "3") :=
  ⟨rfl, rfl, by decide⟩

/-- Claim C7 (amended): once the scratch reshare exists, the deletion is
attempted exactly once on every exit path of the probe body; a deletion
failure surfaced as the status `ValueError` is only logged and never
replaces the primary outcome — but a deletion failure of any other kind
(such as the retry-exhaustion `TimeoutError`) escalates out of the
`finally:` block. -/
theorem claim_C7_cleanup (pid : Int)
    (polls : List (Except PyExc ExtendedInfoModelE)) (del_ : Except PyExc Unit) :
    (get_author_hacky pid polls del_).2 = 1 ∧
    (del_ = .ok () ∨ del_ = .error .valueError →
      (get_author_hacky pid polls del_).1 = hacky_body pid polls) := by
  constructor
  · cases del_ with
    | ok u => rfl
    | error e => cases e <;> rfl
  · rintro (rfl | rfl) <;> rfl

/-- Witness for the amended C7: a successful probe with a clean deletion. -/
theorem claim_C7_witness :
    (get_author_hacky 7 [.ok probeEP] (.ok ())).2 = 1 ∧
    (get_author_hacky 7 [.ok probeEP] (.ok ())).1 = hacky_body 7 [.ok probeEP] :=
  ⟨(claim_C7_cleanup 7 [.ok probeEP] (.ok ())).1,
   (claim_C7_cleanup 7 [.ok probeEP] (.ok ())).2 (Or.inl rfl)⟩

/-- Counterexample to C7 as stated: the probe resolves the author
(`origin`), but a retry-exhaustion failure of the cleanup deletion is not
caught by the `except ValueError` inside the `finally:` block, so it
escalates and replaces the primary result. -/
theorem claim_C7_counterexample :
    hacky_body 7 [.ok probeEP] = .ok "origin" ∧
    get_author_hacky 7 [.ok probeEP] (.error .timeoutError) =
      (.error .timeoutError, 1) :=
  ⟨rfl, rfl⟩

/-- On an object body whose `"message"` member (if present) is a string, the
message probe always ends in the `KeyError` of the integer lookup `js[0]`
on a string-keyed dict — one of the locally caught exceptions. -/
theorem message_probe_obj (fs : List (String × JsonVal))
    (h : messageFieldOk fs = true) :
    message_probe (.obj fs) = .error .keyError := by
  cases hb : fs.any (fun p => p.1 == "message") with
  | false => simp [message_probe, pyContainsStr, hb, pyIndexZero]
  | true =>
    cases hf : fs.find? (fun p => p.1 == "message") with
    | none => simp [message_probe, pyContainsStr, hb, pyIndexStr, hf]
    | some p =>
      have hs : isStrVal p.2 = true := by
        unfold messageFieldOk at h
        rw [hf] at h
        exact h
      cases hp : p.2 <;> rw [hp] at hs <;> simp [isStrVal] at hs
      case str s =>
        simp [message_probe, pyContainsStr, hb, pyIndexStr, hf, hp, pyStrip, pyIndexZero]

/-- On a batch-style array body headed by an object, containing no element
equal to the string `"message"`, and whose head's `"error"` member (if
present) is an object with a string-or-absent `"message"` member, the
message probe either completes or stops at a caught `KeyError`. -/
theorem message_probe_arr (fs : List (String × JsonVal)) (tail : List JsonVal)
    (hall : (JsonVal.obj fs :: tail).all
        (fun e => match e with | .str s => !(s == "message") | _ => true) = true)
    (herr : (match fs.find? (fun p => p.1 == "error") with
             | none => true
             | some p => match p.2 with | .obj ws => messageFieldOk ws | _ => false) = true) :
    message_probe (.arr (JsonVal.obj fs :: tail)) = .ok () ∨
    message_probe (.arr (JsonVal.obj fs :: tail)) = .error .keyError := by
  have hany : (JsonVal.obj fs :: tail).any
      (fun e => match e with | .str s => s == "message" | _ => false) = false := by
    rw [List.any_eq_false]
    intro e he
    have he' := List.all_eq_true.mp hall e he
    cases e <;> simp_all
  cases hfe : fs.find? (fun p => p.1 == "error") with
  | none =>
    right
    simp [message_probe, pyContainsStr, hany, pyIndexZero, pyIndexStr, hfe]
  | some p =>
    rw [hfe] at herr
    dsimp only at herr
    cases hp : p.2 with
    | arr es2 => rw [hp] at herr; simp at herr
    | str s2 => rw [hp] at herr; simp at herr
    | num n2 => rw [hp] at herr; simp at herr
    | booly b2 => rw [hp] at herr; simp at herr
    | null => rw [hp] at herr; simp at herr
    | obj ws =>
      rw [hp] at herr
      dsimp only at herr
      cases hb2 : ws.any (fun q => q.1 == "message") with
      | false =>
        left
        simp [message_probe, pyContainsStr, hany, pyIndexZero, pyIndexStr, hfe, hp, hb2]
      | true =>
        cases hf2 : ws.find? (fun q => q.1 == "message") with
        | none =>
          right
          simp [message_probe, pyContainsStr, hany, pyIndexZero, pyIndexStr, hfe, hp, hb2, hf2]
        | some q =>
          have hs : isStrVal q.2 = true := by
            unfold messageFieldOk at herr
            rw [hf2] at herr
            exact herr
          cases hq : q.2 <;> rw [hq] at hs <;> simp [isStrVal] at hs
          case str s =>
            left
            simp [message_probe, pyContainsStr, hany, pyIndexZero, pyIndexStr,
                  hfe, hp, hb2, hf2, hq, pyStrip]

/-- On any safe body shape the whole `try:` block either completes or raises
one of the two exceptions caught by the source's `except` clauses. -/
theorem extract_message_safe (body : Option JsonVal) (h : bodySafe body = true) :
    extract_message body = none ∨ extract_message body = some .valueError ∨
    extract_message body = some .keyError := by
  match body with
  | none => exact Or.inr (Or.inl rfl)
  | some (.obj fs) =>
    have hm := message_probe_obj fs (by simpa [bodySafe] using h)
    exact Or.inr (Or.inr (by simp [extract_message, hm]))
  | some (.arr es) =>
    rcases es with _ | ⟨e0, tail⟩
    · simp [bodySafe] at h
    · cases e0 with
      | obj fs =>
        rw [bodySafe] at h
        try dsimp only at h
        rw [Bool.and_eq_true] at h
        rcases message_probe_arr fs tail h.1 h.2 with hm | hm
        · exact Or.inl (by simp [extract_message, hm])
        · exact Or.inr (Or.inr (by simp [extract_message, hm]))
      | arr es2 => simp [bodySafe] at h
      | str s2 => simp [bodySafe] at h
      | num n2 => simp [bodySafe] at h
      | booly b2 => simp [bodySafe] at h
      | null => simp [bodySafe] at h
  | some (.str s) => simp [bodySafe] at h
  | some (.num n) => simp [bodySafe] at h
  | some (.booly b) => simp [bodySafe] at h
  | some .null => simp [bodySafe] at h

/-- Claim C5 (amended): for a response whose status is neither 200 nor 418
nor in [500,599], and whose body is undecodable JSON, a JSON object whose
`"message"` member (if present) is a string, or a batch array headed by an
object whose `"error"` member (if present) is an object with a
string-or-absent `"message"` member and which contains no element equal to
the string `"message"`, the executor fails fatally with the status-code
error embedding both the URL and the status; the absence of either message
field is not an error.  Bodies of other top-level shapes can instead leak
an uncaught `TypeError`/`IndexError`/`AttributeError` from the probe. -/
theorem claim_C5_status_error (url : String) (now : Int) (s : Nat)
    (ra : Option String) (body : Option JsonVal)
    (h200 : s ≠ 200) (h418 : s ≠ 418) (h5xx : ¬(500 ≤ s ∧ s ≤ 599))
    (hb : bodySafe body = true) :
    _try_with_backoff url now [⟨s, ra, body⟩] = (.statusError url s, 1) := by
  unfold _try_with_backoff
  simp only [try_loop]
  rw [if_neg (fun hor => Or.elim hor h418 h5xx)]
  rw [if_pos h200]
  rcases extract_message_safe body hb with he | he | he <;> simp [he]

/-- Witness for the amended C5: a 404 with an object body carrying a string
message is surfaced as the status error with URL and code. -/
theorem claim_C5_witness :
    (404 ≠ 200) ∧ (404 ≠ 418) ∧ ¬(500 ≤ 404 ∧ 404 ≤ 599) ∧
    bodySafe (some (.obj [("message", .str "oops")])) = true ∧
    _try_with_backoff "https://cohost.org/x" 0
        [⟨404, none, some (.obj [("message", .str "oops")])⟩] =
      (.statusError "https://cohost.org/x" 404, 1) :=
  ⟨by decide, by decide, by decide, rfl,
   claim_C5_status_error "https://cohost.org/x" 0 404 none
     (some (.obj [("message", .str "oops")]))
     (by decide) (by decide) (by decide) rfl⟩

/-- Counterexample to C5 as stated: with a non-retryable 404 and the body
`null` — a shape lacking both message fields — the probe's `"message" in js`
raises an uncaught `TypeError`, which propagates instead of the promised
status-code error. -/
theorem claim_C5_counterexample :
    _try_with_backoff "u" 0 [⟨404, none, some .null⟩] = (.pythonExc .typeError, 1) ∧
    (ExecResult.pythonExc .typeError ≠ ExecResult.statusError "u" 404) :=
  ⟨rfl, fun h => ExecResult.noConfusion h⟩

/-- Claim C8: the digits hint `"120"` yields `now + 120` seconds for every
failure count; a hint matching the HTTP-date regex and parsing to an
instant strictly in the future yields that instant plus one second of
margin; such a date already in the past yields `now + backoff(failures)`. -/
theorem claim_C8_parse_retry_hint (f : Nat) (hf : 1 ≤ f)
    (now1 now2 now3 : Int) (hint : String) (c : DateComps) (t : Int)
    (hd : dateMatch hint.data = some c)
    (ht : strptimeEpoch c = some t) :
    parse_retry_after "120" f now1 = .timestamp (now1 + 120) ∧
    (now2 < t → parse_retry_after hint f now2 = .timestamp (t + 1)) ∧
    (t < now3 → parse_retry_after hint f now3 = .timestamp (now3 + backoff f)) := by
  have hdm : digitsMatch hint.data = none := dateMatch_digitsMatch_none hint.data c hd
  refine ⟨rfl, ?_, ?_⟩
  · intro hfut
    simp only [parse_retry_after, hdm, hd, ht]
    rw [if_neg (lt_asymm hfut)]
  · intro hpast
    simp only [parse_retry_after, hdm, hd, ht]
    rw [if_pos hpast]

/-- Witness for C8 with the spec's own example date
`Mon, 01 Jan 2023 01:02:03 GMT` (instant 63808131723 on the embedded
timeline, counted from year 1): a "now" before it gets the date plus one
second, a "now" after it gets `now + backoff(1)`. -/
theorem claim_C8_witness :
    parse_retry_after "120" 1 50 = .timestamp (50 + 120) ∧
    parse_retry_after "Mon, 01 Jan 2023 01:02:03 GMT" 1 0 =
      .timestamp (63808131723 + 1) ∧
    parse_retry_after "Mon, 01 Jan 2023 01:02:03 GMT" 1 63808131823 =
      .timestamp (63808131823 + backoff 1) := by
  obtain ⟨h1, h2, h3⟩ := claim_C8_parse_retry_hint 1 (le_refl 1) 50 0 63808131823
    "Mon, 01 Jan 2023 01:02:03 GMT" ⟨1, 1, 2023, 1, 2, 3⟩ 63808131723
    (by decide) (by decide)
  exact ⟨h1, h2 (by decide), h3 (by decide)⟩
